import Mathlib

/-!
Verification of the WalkBuddy matching core.

This file shallowly embeds the matching core of the WalkBuddy application:
the SQL functions `calculate_distance`, `find_walk_buddy` and
`cleanup_expired_requests` from `supabase-migration.sql`, and the TypeScript
service functions `cancelRequest` and `confirmMeetup`
(`src/lib/services/walkRequest.ts`) and `completeMatch` and `cancelMatch`
(`src/lib/services/match.ts`).

Modelling conventions:
- SQL `TEXT` status columns are Lean `String`s; the CHECK constraint of
  `walk_requests.status` is embedded separately as a boolean predicate.
- UUIDs are `String`s; `uuid_generate_v4` for a freshly inserted Match row is
  modelled as an extra input parameter (an oracle for the generated id).
- `TIMESTAMP` values are integers; `NOW()` is an explicit `now` parameter.
- `DOUBLE PRECISION` coordinates are rationals in the store model.  The SQL
  `calculate_distance` is a transcendental (Haversine) function; it is
  embedded over the reals below for its algebraic properties, while the
  matcher `find_walk_buddy` is parametrised by an arbitrary distance
  function `d`, so every theorem about the matcher holds for the Haversine
  distance in particular.
- `SELECT ... INTO` with no matching row yields SQL NULL, modelled by
  `Option`; the SQL three-valued comparison `wr.user_id != v_user_id` is
  false (row filtered out) when `v_user_id` is NULL, and the model keeps
  that behaviour.
-/

namespace WalkBuddy

/-! ## Geo utility: `calculate_distance` over the reals

Embeds `calculate_distance(lat1, lng1, lat2, lng2)` from
`supabase-migration.sql` lines 117-137, over exact real arithmetic.
-/

/-- Degree-to-radian conversion, the SQL `radians` builtin. -/
noncomputable def radians (x : ℝ) : ℝ := x * Real.pi / 180

/-- The SQL `atan2(y, x)` builtin (the C/IEEE two-argument arctangent),
defined piecewise from `Real.arctan`. -/
noncomputable def atan2 (y x : ℝ) : ℝ :=
  if 0 < x then Real.arctan (y / x)
  else if x < 0 ∧ 0 ≤ y then Real.arctan (y / x) + Real.pi
  else if x < 0 ∧ y < 0 then Real.arctan (y / x) - Real.pi
  else if 0 < y then Real.pi / 2
  else if y < 0 then -(Real.pi / 2)
  else 0

/-- `calculate_distance` from `supabase-migration.sql`: Haversine
great-circle distance in miles on a sphere of radius 3959. -/
noncomputable def calculate_distance (lat1 lng1 lat2 lng2 : ℝ) : ℝ :=
  let r : ℝ := 3959
  let dlat := radians (lat2 - lat1)
  let dlng := radians (lng2 - lng1)
  let a := Real.sin (dlat / 2) * Real.sin (dlat / 2) +
    Real.cos (radians lat1) * Real.cos (radians lat2) *
      Real.sin (dlng / 2) * Real.sin (dlng / 2)
  let c := 2 * atan2 (Real.sqrt a) (Real.sqrt (1 - a))
  r * c

/-! ## Data model

Rows of the `profiles`, `walk_requests` and `matches` tables
(`supabase-migration.sql` lines 8-40), restricted to the columns the
matching core reads or writes.
-/

/-- A row of the `profiles` table (trust fields only). -/
structure Profile where
  id : String
  trust_score : ℤ
  is_banned : Bool
  deriving DecidableEq, Repr

/-- A row of the `walk_requests` table. -/
structure WalkRequest where
  id : String
  user_id : String
  start_lat : ℚ
  start_lng : ℚ
  dest_lat : ℚ
  dest_lng : ℚ
  status : String
  matched_with : Option String
  expires_at : ℤ
  deriving DecidableEq, Repr

/-- A row of the `matches` table. -/
structure MatchRec where
  id : String
  request_1 : String
  request_2 : String
  meetup_lat : ℚ
  meetup_lng : ℚ
  status : String
  deriving DecidableEq, Repr

/-- The database state visible to the matching core.  The field
`match_rows` embeds the `matches` table (the table's own name collides
with a Lean keyword). -/
structure Store where
  profiles : List Profile
  walk_requests : List WalkRequest
  match_rows : List MatchRec
  deriving DecidableEq, Repr

/-- The CHECK constraint on `walk_requests.status`
(`supabase-migration.sql` line 25):
`status IN ('waiting', 'matched', 'expired', 'cancelled')`. -/
def walk_requests_status_check (st : String) : Bool :=
  st == "waiting" || st == "matched" || st == "expired" || st == "cancelled"

/-- `SELECT ... FROM walk_requests WHERE id = rid` (first row, if any). -/
def lookupRequest (s : Store) (rid : String) : Option WalkRequest :=
  s.walk_requests.find? (fun r => r.id == rid)

/-- `SELECT ... FROM profiles WHERE id = uid` (first row, if any). -/
def lookupProfile (s : Store) (uid : String) : Option Profile :=
  s.profiles.find? (fun p => p.id == uid)

/-- PostgREST `.single()`: succeeds exactly when the row set has
exactly one element. -/
def singleRow {α : Type} : List α → Option α
  | [a] => some a
  | _ => none

/-- The `walk_requests` table has unique primary keys
(`id UUID PRIMARY KEY`, `supabase-migration.sql` line 19). -/
def uniqueRequestIds (s : Store) : Prop :=
  s.walk_requests.Pairwise (fun a b => a.id ≠ b.id)

/-! ## The matcher: `find_walk_buddy`

Embeds `find_walk_buddy(p_request_id, p_start_lat, p_start_lng, p_dest_lat,
p_dest_lng)` from `supabase-migration.sql` lines 140-204.  The distance
function `d` (the SQL `calculate_distance`) and the clock `now` are
parameters; `mid` is the id `uuid_generate_v4()` assigns to the inserted
Match row.  The function is split into its read phase `fwb_select` (the
candidate `SELECT`, lines 161-175) and its write phase `fwb_commit` (the
two `UPDATE`s and the `INSERT`, lines 182-202), composed sequentially in
`find_walk_buddy`; the split mirrors the SQL statement boundaries and lets
interleavings of concurrent invocations be stated.
-/

/-- The `WHERE` clause of the candidate `SELECT`
(`supabase-migration.sql` lines 166-173), including the `JOIN profiles`
on `p.id = wr.user_id`.  `v_user_id` is NULL (`none`) when the requesting
row does not exist; SQL's `wr.user_id != NULL` is then unknown and the
row is filtered out.  The SQL thresholds `0.3` and `0.2` are written
`mkRat 3 10` and `mkRat 2 10` (the exact rationals 3/10 and 2/10). -/
def eligibleCand (d : ℚ → ℚ → ℚ → ℚ → ℚ) (s : Store) (p_request_id : String)
    (v_user_id : Option String)
    (p_start_lat p_start_lng p_dest_lat p_dest_lng : ℚ) (now : ℤ)
    (wr : WalkRequest) : Bool :=
  match lookupProfile s wr.user_id with
  | none => false
  | some p =>
    wr.status == "waiting" &&
    wr.id != p_request_id &&
    (match v_user_id with
     | none => false
     | some u => wr.user_id != u) &&
    decide (50 < p.trust_score) &&
    p.is_banned == false &&
    decide (d p_start_lat p_start_lng wr.start_lat wr.start_lng ≤ mkRat 3 10) &&
    decide (d p_dest_lat p_dest_lng wr.dest_lat wr.dest_lng ≤ mkRat 2 10) &&
    decide (now < wr.expires_at)

/-- One comparison step of `ORDER BY calculate_distance(...) LIMIT 1`:
keep the closer of two rows, the earlier row on ties. -/
def pickCloser (d : ℚ → ℚ → ℚ → ℚ → ℚ) (la ln : ℚ)
    (a b : WalkRequest) : WalkRequest :=
  if d la ln b.start_lat b.start_lng < d la ln a.start_lat a.start_lng
  then b else a

/-- `ORDER BY calculate_distance(p_start, wr.start) LIMIT 1` over a row
list: a row at minimal start distance, or `none` on the empty list. -/
def selectNearest (d : ℚ → ℚ → ℚ → ℚ → ℚ) (la ln : ℚ) :
    List WalkRequest → Option WalkRequest
  | [] => none
  | x :: xs => some (xs.foldl (pickCloser d la ln) x)

/-- The read phase of `find_walk_buddy`: the candidate `SELECT ... INTO`
(`supabase-migration.sql` lines 161-175). -/
def fwb_select (d : ℚ → ℚ → ℚ → ℚ → ℚ) (s : Store) (p_request_id : String)
    (v_user_id : Option String)
    (p_start_lat p_start_lng p_dest_lat p_dest_lng : ℚ) (now : ℤ) :
    Option WalkRequest :=
  selectNearest d p_start_lat p_start_lng
    (s.walk_requests.filter
      (eligibleCand d s p_request_id v_user_id
        p_start_lat p_start_lng p_dest_lat p_dest_lng now))

/-- The write phase of `find_walk_buddy` (`supabase-migration.sql` lines
182-202): midpoint computation, the two unconditional `UPDATE ... WHERE id =`
statements (note: no `status = 'waiting'` guard), and the `INSERT INTO
matches` with default status `'pending'`.  `cand` is the candidate row read
by `fwb_select`; `mid` the generated Match id. -/
def fwb_commit (s : Store) (p_request_id : String) (v_user_id : Option String)
    (p_start_lat p_start_lng : ℚ) (cand : WalkRequest) (mid : String) :
    Store × Option String :=
  let v_matched_user_id := cand.user_id
  let v_meetup_lat := (p_start_lat + cand.start_lat) / 2
  let v_meetup_lng := (p_start_lng + cand.start_lng) / 2
  let wrs1 := s.walk_requests.map (fun r =>
    if r.id = p_request_id then
      { r with status := "matched", matched_with := some v_matched_user_id }
    else r)
  let wrs2 := wrs1.map (fun r =>
    if r.id = cand.id then
      { r with status := "matched", matched_with := v_user_id }
    else r)
  ({ s with
      walk_requests := wrs2,
      match_rows := s.match_rows ++
        [{ id := mid, request_1 := p_request_id, request_2 := cand.id,
           meetup_lat := v_meetup_lat, meetup_lng := v_meetup_lng,
           status := "pending" }] },
   some cand.id)

/-- `find_walk_buddy` (`supabase-migration.sql` lines 140-204): look up the
requester's `user_id`, select the nearest eligible candidate, return NULL
if there is none, otherwise commit the pairing and return the matched
request id. -/
def find_walk_buddy (d : ℚ → ℚ → ℚ → ℚ → ℚ) (s : Store) (p_request_id : String)
    (p_start_lat p_start_lng p_dest_lat p_dest_lng : ℚ) (now : ℤ)
    (mid : String) : Store × Option String :=
  let v_user_id := (lookupRequest s p_request_id).map (fun r => r.user_id)
  match fwb_select d s p_request_id v_user_id
      p_start_lat p_start_lng p_dest_lat p_dest_lng now with
  | none => (s, none)
  | some cand =>
    fwb_commit s p_request_id v_user_id p_start_lat p_start_lng cand mid

/-! ## The expiration sweeper: `cleanup_expired_requests`

Embeds `cleanup_expired_requests()` from `supabase-migration.sql` lines
229-237: `UPDATE walk_requests SET status = 'expired' WHERE status =
'waiting' AND expires_at < NOW()`.
-/

/-- The row transformation of the sweeper's `UPDATE`. -/
def sweepRow (now : ℤ) (r : WalkRequest) : WalkRequest :=
  if r.status = "waiting" ∧ r.expires_at < now then
    { r with status := "expired" }
  else r

/-- `cleanup_expired_requests`, with `NOW()` as the parameter `now`. -/
def cleanup_expired_requests (s : Store) (now : ℤ) : Store :=
  { s with walk_requests := s.walk_requests.map (sweepRow now) }

/-! ## TypeScript service layer

Embeds the store-mutating service functions of
`src/lib/services/walkRequest.ts` and `src/lib/services/match.ts`.
Thrown `Error`s are modelled by an error kind derived from the thrown
message.
-/

/-- Kinds of errors the services throw, keyed by their messages:
`notFound` for fetch failures and missing rows, `unauthorized` for the
`Unauthorized: ...` messages, `invalidState` for
`Can only confirm matched requests`. -/
inductive SvcError where
  | notFound
  | unauthorized
  | invalidState
  deriving DecidableEq, Repr

/-- `cancelRequest(requestId, userId)` from
`src/lib/services/walkRequest.ts` lines 97-134: fetch the request with
`.single()`, throw `Unauthorized` unless `userId` owns it, then
`UPDATE walk_requests SET status = 'cancelled' WHERE id = requestId`
(no precondition on the current status). -/
def cancelRequest (s : Store) (requestId userId : String) :
    Except SvcError Store :=
  match singleRow (s.walk_requests.filter (fun r => r.id == requestId)) with
  | none => .error .notFound
  | some req =>
    if req.user_id ≠ userId then .error .unauthorized
    else .ok { s with walk_requests := s.walk_requests.map (fun r =>
      if r.id = requestId then { r with status := "cancelled" } else r) }

/-- `confirmMeetup(requestId, userId)` from
`src/lib/services/walkRequest.ts` lines 140-202: fetch the request,
throw `Unauthorized` unless owned by `userId`, throw the invalid-state
error unless its status is `'matched'`, set the status to `'completed'`,
then set the associated match (found with `.single()` over
`request_1 = requestId OR request_2 = requestId`; skipped with a warning
when that lookup is not a single row) to status `'active'`. -/
def confirmMeetup (s : Store) (requestId userId : String) :
    Except SvcError Store :=
  match singleRow (s.walk_requests.filter (fun r => r.id == requestId)) with
  | none => .error .notFound
  | some req =>
    if req.user_id ≠ userId then .error .unauthorized
    else if req.status ≠ "matched" then .error .invalidState
    else
      let s1 := { s with walk_requests := s.walk_requests.map (fun r =>
        if r.id = requestId then { r with status := "completed" } else r) }
      match singleRow (s1.match_rows.filter (fun m =>
          m.request_1 == requestId || m.request_2 == requestId)) with
      | none => .ok s1
      | some m =>
        .ok { s1 with match_rows := s1.match_rows.map (fun x =>
          if x.id = m.id then { x with status := "active" } else x) }

/-- `completeMatch(matchId, userId)` from `src/lib/services/match.ts`
lines 94-139: fetch the match with `.single()`, fetch the requests whose
id is `request_1` or `request_2`, throw `Unauthorized` unless `userId`
owns one of them, then `UPDATE matches SET status = 'completed' WHERE id
= matchId` (no precondition on the current match status). -/
def completeMatch (s : Store) (matchId userId : String) :
    Except SvcError Store :=
  match singleRow (s.match_rows.filter (fun m => m.id == matchId)) with
  | none => .error .notFound
  | some m =>
    let requests := s.walk_requests.filter (fun r =>
      r.id == m.request_1 || r.id == m.request_2)
    if requests.any (fun r => r.user_id == userId) then
      .ok { s with match_rows := s.match_rows.map (fun x =>
        if x.id = matchId then { x with status := "completed" } else x) }
    else .error .unauthorized

/-- `cancelMatch(matchId, userId)` from `src/lib/services/match.ts`
lines 144-189: identical to `completeMatch` except the written status is
`'cancelled'`. -/
def cancelMatch (s : Store) (matchId userId : String) :
    Except SvcError Store :=
  match singleRow (s.match_rows.filter (fun m => m.id == matchId)) with
  | none => .error .notFound
  | some m =>
    let requests := s.walk_requests.filter (fun r =>
      r.id == m.request_1 || r.id == m.request_2)
    if requests.any (fun r => r.user_id == userId) then
      .ok { s with match_rows := s.match_rows.map (fun x =>
        if x.id = matchId then { x with status := "cancelled" } else x) }
    else .error .unauthorized

/-! ## Theorems -/

/-- The sort key of the candidate `ORDER BY`: distance from the
requester's start point to a row's start point. -/
def dstart (d : ℚ → ℚ → ℚ → ℚ → ℚ) (la ln : ℚ) (r : WalkRequest) : ℚ :=
  d la ln r.start_lat r.start_lng

lemma pickCloser_le_left (d : ℚ → ℚ → ℚ → ℚ → ℚ) (la ln : ℚ)
    (a b : WalkRequest) :
    dstart d la ln (pickCloser d la ln a b) ≤ dstart d la ln a := by
  unfold pickCloser dstart
  split
  · exact le_of_lt (by assumption)
  · exact le_refl _

lemma pickCloser_le_right (d : ℚ → ℚ → ℚ → ℚ → ℚ) (la ln : ℚ)
    (a b : WalkRequest) :
    dstart d la ln (pickCloser d la ln a b) ≤ dstart d la ln b := by
  unfold pickCloser dstart
  split
  · exact le_refl _
  · exact le_of_not_lt (by assumption)

lemma pickCloser_cases (d : ℚ → ℚ → ℚ → ℚ → ℚ) (la ln : ℚ)
    (a b : WalkRequest) :
    pickCloser d la ln a b = a ∨ pickCloser d la ln a b = b := by
  unfold pickCloser
  split
  · exact Or.inr rfl
  · exact Or.inl rfl

lemma foldl_pickCloser_spec (d : ℚ → ℚ → ℚ → ℚ → ℚ) (la ln : ℚ)
    (l : List WalkRequest) : ∀ a : WalkRequest,
    (l.foldl (pickCloser d la ln) a = a ∨ l.foldl (pickCloser d la ln) a ∈ l) ∧
    dstart d la ln (l.foldl (pickCloser d la ln) a) ≤ dstart d la ln a ∧
    ∀ x ∈ l, dstart d la ln (l.foldl (pickCloser d la ln) a) ≤ dstart d la ln x := by
  induction l with
  | nil => intro a; simp
  | cons y ys ih =>
    intro a
    simp only [List.foldl_cons]
    obtain ⟨hmem, hle, hall⟩ := ih (pickCloser d la ln a y)
    refine ⟨?_, ?_, ?_⟩
    · rcases hmem with h | h
      · rcases pickCloser_cases d la ln a y with hc | hc
        · exact Or.inl (h.trans hc)
        · exact Or.inr (by rw [h, hc]; exact List.mem_cons_self y ys)
      · exact Or.inr (List.mem_cons_of_mem y h)
    · exact hle.trans (pickCloser_le_left d la ln a y)
    · intro x hx
      rcases List.mem_cons.mp hx with hx | hx
      · subst hx
        exact hle.trans (pickCloser_le_right d la ln a x)
      · exact hall x hx

lemma selectNearest_eq_none_iff (d : ℚ → ℚ → ℚ → ℚ → ℚ) (la ln : ℚ)
    (l : List WalkRequest) : selectNearest d la ln l = none ↔ l = [] := by
  cases l <;> simp [selectNearest]

lemma selectNearest_spec (d : ℚ → ℚ → ℚ → ℚ → ℚ) (la ln : ℚ)
    (l : List WalkRequest) (b : WalkRequest)
    (h : selectNearest d la ln l = some b) :
    b ∈ l ∧ ∀ x ∈ l, dstart d la ln b ≤ dstart d la ln x := by
  cases l with
  | nil => simp [selectNearest] at h
  | cons y ys =>
    simp only [selectNearest, Option.some.injEq] at h
    obtain ⟨hmem, hle, hall⟩ := foldl_pickCloser_spec d la ln ys y
    rw [h] at hmem hle hall
    refine ⟨?_, ?_⟩
    · rcases hmem with hm | hm
      · rw [hm]; exact List.mem_cons_self y ys
      · exact List.mem_cons_of_mem y hm
    · intro x hx
      rcases List.mem_cons.mp hx with hx | hx
      · subst hx; exact hle
      · exact hall x hx

lemma find?_id_map (f : WalkRequest → WalkRequest)
    (hf : ∀ r, (f r).id = r.id) (l : List WalkRequest) (x : String) :
    (l.map f).find? (fun r => r.id == x) =
      (l.find? (fun r => r.id == x)).map f := by
  rw [List.find?_map]
  have hp : ((fun r : WalkRequest => r.id == x) ∘ f) =
      (fun r : WalkRequest => r.id == x) := by
    funext r
    simp [Function.comp, hf r]
  rw [hp]

lemma unique_find? (l : List WalkRequest)
    (hl : l.Pairwise (fun a b => a.id ≠ b.id)) (r : WalkRequest)
    (hr : r ∈ l) : l.find? (fun x => x.id == r.id) = some r := by
  induction l with
  | nil => simp at hr
  | cons a t ih =>
    rcases List.mem_cons.mp hr with h | h
    · subst h
      simp [List.find?]
    · have ha : a.id ≠ r.id := (List.pairwise_cons.mp hl).1 r h
      have : (a.id == r.id) = false := by
        simpa using ha
      simp only [List.find?, this]
      exact ih (List.pairwise_cons.mp hl).2 h

lemma sweepRow_idem (now : ℤ) (r : WalkRequest) :
    sweepRow now (sweepRow now r) = sweepRow now r := by
  unfold sweepRow
  by_cases h : r.status = "waiting" ∧ r.expires_at < now
  · simp [h]
  · simp [h]

/-- C6: the sweeper `cleanup_expired_requests` keeps profiles and matches
intact; it rewrites exactly the walk requests that are `waiting` with a
passed deadline to `expired`, leaves every other request (in particular
any `matched`, `cancelled`, `completed` or `expired` one) untouched, and
running it twice in succession equals running it once. -/
theorem cleanup_expired_requests_frame_and_idempotent (s : Store) (now : ℤ) :
    (cleanup_expired_requests s now).profiles = s.profiles ∧
    (cleanup_expired_requests s now).match_rows = s.match_rows ∧
    (cleanup_expired_requests s now).walk_requests.length =
      s.walk_requests.length ∧
    (∀ i : ℕ, ∀ r : WalkRequest, s.walk_requests[i]? = some r →
      ((r.status = "waiting" ∧ r.expires_at < now →
          (cleanup_expired_requests s now).walk_requests[i]? =
            some { r with status := "expired" }) ∧
       (¬(r.status = "waiting" ∧ r.expires_at < now) →
          (cleanup_expired_requests s now).walk_requests[i]? = some r))) ∧
    cleanup_expired_requests (cleanup_expired_requests s now) now =
      cleanup_expired_requests s now := by
  refine ⟨rfl, rfl, by simp [cleanup_expired_requests], ?_, ?_⟩
  · intro i r hr
    constructor
    · intro h
      simp [cleanup_expired_requests, List.getElem?_map, hr, sweepRow, h]
    · intro h
      simp [cleanup_expired_requests, List.getElem?_map, hr, sweepRow, h]
  · have hmap : (s.walk_requests.map (sweepRow now)).map (sweepRow now) =
        s.walk_requests.map (sweepRow now) := by
      rw [List.map_map]
      exact List.map_congr_left (fun r _ => sweepRow_idem now r)
    simp [cleanup_expired_requests, hmap]

/-- The eligibility conditions of the candidate `SELECT`, as a
proposition about a pool row `wr`, relative to requester request id
`rid` owned by user `ru`. -/
def Eligible (d : ℚ → ℚ → ℚ → ℚ → ℚ) (s : Store) (rid ru : String)
    (pslat pslng pdlat pdlng : ℚ) (now : ℤ) (wr : WalkRequest) : Prop :=
  wr.status = "waiting" ∧ wr.id ≠ rid ∧ wr.user_id ≠ ru ∧
  (∃ p, lookupProfile s wr.user_id = some p ∧ 50 < p.trust_score ∧
    p.is_banned = false) ∧
  d pslat pslng wr.start_lat wr.start_lng ≤ mkRat 3 10 ∧
  d pdlat pdlng wr.dest_lat wr.dest_lng ≤ mkRat 2 10 ∧
  now < wr.expires_at

lemma eligibleCand_iff (d : ℚ → ℚ → ℚ → ℚ → ℚ) (s : Store) (rid ru : String)
    (pslat pslng pdlat pdlng : ℚ) (now : ℤ) (wr : WalkRequest) :
    eligibleCand d s rid (some ru) pslat pslng pdlat pdlng now wr = true ↔
    Eligible d s rid ru pslat pslng pdlat pdlng now wr := by
  unfold eligibleCand Eligible
  cases h : lookupProfile s wr.user_id with
  | none => simp [h]
  | some p =>
    simp [h, and_assoc]

lemma fwb_select_none_iff (d : ℚ → ℚ → ℚ → ℚ → ℚ) (s : Store)
    (rid ru : String) (pslat pslng pdlat pdlng : ℚ) (now : ℤ) :
    fwb_select d s rid (some ru) pslat pslng pdlat pdlng now = none ↔
    ∀ wr ∈ s.walk_requests,
      ¬ Eligible d s rid ru pslat pslng pdlat pdlng now wr := by
  unfold fwb_select
  rw [selectNearest_eq_none_iff, List.filter_eq_nil_iff]
  constructor
  · intro h wr hw hp
    exact h wr hw ((eligibleCand_iff d s rid ru pslat pslng pdlat pdlng now wr).mpr hp)
  · intro h wr hw hb
    exact h wr hw ((eligibleCand_iff d s rid ru pslat pslng pdlat pdlng now wr).mp hb)

lemma fwb_select_some_spec (d : ℚ → ℚ → ℚ → ℚ → ℚ) (s : Store)
    (rid ru : String) (pslat pslng pdlat pdlng : ℚ) (now : ℤ)
    (cand : WalkRequest)
    (h : fwb_select d s rid (some ru) pslat pslng pdlat pdlng now = some cand) :
    cand ∈ s.walk_requests ∧
    Eligible d s rid ru pslat pslng pdlat pdlng now cand ∧
    ∀ wr ∈ s.walk_requests,
      Eligible d s rid ru pslat pslng pdlat pdlng now wr →
        d pslat pslng cand.start_lat cand.start_lng ≤
          d pslat pslng wr.start_lat wr.start_lng := by
  unfold fwb_select at h
  obtain ⟨hmem, hmin⟩ := selectNearest_spec _ _ _ _ _ h
  have hc := List.mem_filter.mp hmem
  refine ⟨hc.1,
    (eligibleCand_iff d s rid ru pslat pslng pdlat pdlng now cand).mp hc.2, ?_⟩
  intro wr hw hp
  exact hmin wr (List.mem_filter.mpr
    ⟨hw, (eligibleCand_iff d s rid ru pslat pslng pdlat pdlng now wr).mpr hp⟩)

/-- C1: for a requester whose request row exists, `find_walk_buddy`
returns `none` exactly when no pool row satisfies all the eligibility
conditions (status waiting, different request id, different owning user,
owner's trust_score strictly above 50, owner not banned, start distance
at most 0.3 inclusive, destination distance at most 0.2 inclusive,
expiry strictly after now); and when it returns an id, that id belongs
to an eligible row whose start distance to the requester is minimal
among all eligible rows. -/
theorem find_walk_buddy_returns_nearest_eligible
    (d : ℚ → ℚ → ℚ → ℚ → ℚ) (s : Store) (rid : String)
    (pslat pslng pdlat pdlng : ℚ) (now : ℤ) (mid : String)
    (req : WalkRequest) (hreq : lookupRequest s rid = some req) :
    ((find_walk_buddy d s rid pslat pslng pdlat pdlng now mid).2 = none ↔
      ∀ wr ∈ s.walk_requests,
        ¬ Eligible d s rid req.user_id pslat pslng pdlat pdlng now wr) ∧
    (∀ cid,
      (find_walk_buddy d s rid pslat pslng pdlat pdlng now mid).2 = some cid →
      ∃ wr ∈ s.walk_requests, wr.id = cid ∧
        Eligible d s rid req.user_id pslat pslng pdlat pdlng now wr ∧
        ∀ wr' ∈ s.walk_requests,
          Eligible d s rid req.user_id pslat pslng pdlat pdlng now wr' →
            d pslat pslng wr.start_lat wr.start_lng ≤
              d pslat pslng wr'.start_lat wr'.start_lng) := by
  have hv : (lookupRequest s rid).map (fun r => r.user_id) =
      some req.user_id := by
    rw [hreq]; rfl
  cases hsel : fwb_select d s rid (some req.user_id)
      pslat pslng pdlat pdlng now with
  | none =>
    have hres : (find_walk_buddy d s rid pslat pslng pdlat pdlng now mid).2 =
        none := by
      simp [find_walk_buddy, hv, hsel]
    refine ⟨?_, ?_⟩
    · rw [hres]
      simp only [true_iff]
      exact (fwb_select_none_iff d s rid req.user_id
        pslat pslng pdlat pdlng now).mp hsel
    · intro cid hc
      rw [hres] at hc
      exact absurd hc (by simp)
  | some cand =>
    have hres : (find_walk_buddy d s rid pslat pslng pdlat pdlng now mid).2 =
        some cand.id := by
      simp [find_walk_buddy, hv, hsel, fwb_commit]
    obtain ⟨hmem, helig, hmin⟩ :=
      fwb_select_some_spec d s rid req.user_id pslat pslng pdlat pdlng now
        cand hsel
    refine ⟨?_, ?_⟩
    · rw [hres]
      constructor
      · intro h
        exact absurd h (by simp)
      · intro h
        exact absurd helig (h cand hmem)
    · intro cid hc
      rw [hres] at hc
      obtain rfl := Option.some.inj hc
      exact ⟨cand, hmem, rfl, helig, hmin⟩

/-- A concrete distance function for witnesses: the latitude of the
second point (so each pool row carries its own distances, with no
rational arithmetic involved). -/
def latOf : ℚ → ℚ → ℚ → ℚ → ℚ := fun _ _ lat2 _ => lat2

/-- Requester row for the C1 witness. -/
def reqC1 : WalkRequest :=
  { id := "r1", user_id := "u1", start_lat := 0, start_lng := 0,
    dest_lat := 0, dest_lng := 0, status := "waiting",
    matched_with := none, expires_at := 100 }

/-- A farther eligible candidate (start distance 0.2 under `latOf`). -/
def rbC1 : WalkRequest :=
  { id := "rb", user_id := "u2", start_lat := mkRat 2 10, start_lng := 0,
    dest_lat := 0, dest_lng := 0, status := "waiting",
    matched_with := none, expires_at := 100 }

/-- A nearer eligible candidate (start distance 0.1 under `latOf`). -/
def rcC1 : WalkRequest :=
  { id := "rc", user_id := "u3", start_lat := mkRat 1 10, start_lng := 0,
    dest_lat := 0, dest_lng := 0, status := "waiting",
    matched_with := none, expires_at := 100 }

/-- Store for the C1 witness: three waiting requests, trusted owners. -/
def stC1 : Store :=
  { profiles := [{ id := "u1", trust_score := 100, is_banned := false },
                 { id := "u2", trust_score := 80, is_banned := false },
                 { id := "u3", trust_score := 90, is_banned := false }],
    walk_requests := [reqC1, rbC1, rcC1],
    match_rows := [] }

/-- Witness for C1: on `stC1` the matcher picks the nearer eligible
candidate `rc`, and that pick is eligible and distance-minimal. -/
theorem find_walk_buddy_returns_nearest_eligible_witness :
    (find_walk_buddy latOf stC1 "r1" 0 0 0 0 0 "m1").2 = some "rc" ∧
    (∃ wr ∈ stC1.walk_requests, wr.id = "rc" ∧
      Eligible latOf stC1 "r1" reqC1.user_id 0 0 0 0 0 wr ∧
      ∀ wr' ∈ stC1.walk_requests,
        Eligible latOf stC1 "r1" reqC1.user_id 0 0 0 0 0 wr' →
          latOf 0 0 wr.start_lat wr.start_lng ≤
            latOf 0 0 wr'.start_lat wr'.start_lng) :=
  ⟨by decide,
   (find_walk_buddy_returns_nearest_eligible latOf stC1 "r1" 0 0 0 0 0 "m1"
      reqC1 (by decide)).2 "rc" (by decide)⟩

lemma update_preserves_id (tid st : String) (mw : Option String)
    (r : WalkRequest) :
    (if r.id = tid then { r with status := st, matched_with := mw }
     else r).id = r.id := by
  by_cases h : r.id = tid <;> simp [h]

lemma lookup_of_update (l : List WalkRequest) (x tid st : String)
    (mw : Option String) :
    (l.map (fun r =>
      if r.id = tid then { r with status := st, matched_with := mw }
      else r)).find? (fun r => r.id == x) =
    (l.find? (fun r => r.id == x)).map (fun r =>
      if r.id = tid then { r with status := st, matched_with := mw }
      else r) :=
  find?_id_map _ (fun r => update_preserves_id tid st mw r) l x

/-- C2: when `find_walk_buddy` selects a candidate for a waiting
requester, both rows are transitioned from `waiting` to `matched`, each
row's `matched_with` is set to the other row's owning user, and exactly
one Match row is appended, referencing both requests, with status
`pending` and the arithmetic midpoint of the two start coordinates as
its meetup point. -/
theorem find_walk_buddy_match_effects
    (d : ℚ → ℚ → ℚ → ℚ → ℚ) (s : Store) (rid : String)
    (pslat pslng pdlat pdlng : ℚ) (now : ℤ) (mid : String)
    (s' : Store) (cid : String) (req : WalkRequest)
    (huniq : uniqueRequestIds s)
    (hreq : lookupRequest s rid = some req)
    (hw : req.status = "waiting")
    (hlat : req.start_lat = pslat) (hlng : req.start_lng = pslng)
    (hrun : find_walk_buddy d s rid pslat pslng pdlat pdlng now mid =
      (s', some cid)) :
    ∃ cand, lookupRequest s cid = some cand ∧ cand.status = "waiting" ∧
      lookupRequest s' rid =
        some { req with
          status := "matched", matched_with := some cand.user_id } ∧
      lookupRequest s' cid =
        some { cand with
          status := "matched", matched_with := some req.user_id } ∧
      s'.match_rows = s.match_rows ++
        [{ id := mid, request_1 := rid, request_2 := cid,
           meetup_lat := (req.start_lat + cand.start_lat) / 2,
           meetup_lng := (req.start_lng + cand.start_lng) / 2,
           status := "pending" }] := by
  have hv : (lookupRequest s rid).map (fun r => r.user_id) =
      some req.user_id := by
    rw [hreq]; rfl
  have hrid : req.id = rid := by
    have := List.find?_some hreq
    simpa using this
  cases hsel : fwb_select d s rid (some req.user_id)
      pslat pslng pdlat pdlng now with
  | none =>
    have : (s, (none : Option String)) = (s', some cid) := by
      simpa [find_walk_buddy, hv, hsel] using hrun
    exact absurd (congrArg Prod.snd this) (by simp)
  | some cand =>
    have hcm : fwb_commit s rid (some req.user_id) pslat pslng cand mid =
        (s', some cid) := by
      simpa [find_walk_buddy, hv, hsel] using hrun
    have hcid : cand.id = cid :=
      Option.some.inj (congrArg Prod.snd hcm)
    have hs' :
        (fwb_commit s rid (some req.user_id) pslat pslng cand mid).1 = s' :=
      congrArg Prod.fst hcm
    obtain ⟨hmem, helig, _⟩ :=
      fwb_select_some_spec d s rid req.user_id pslat pslng pdlat pdlng now
        cand hsel
    have hcw : cand.status = "waiting" := helig.1
    have hcne : cand.id ≠ rid := helig.2.1
    refine ⟨cand, ?_, hcw, ?_, ?_, ?_⟩
    · unfold lookupRequest
      rw [← hcid]
      exact unique_find? s.walk_requests huniq cand hmem
    · rw [← hs']
      simp only [fwb_commit]
      unfold lookupRequest
      rw [lookup_of_update, lookup_of_update]
      unfold lookupRequest at hreq
      rw [hreq]
      simp only [Option.map_some']
      rw [if_pos hrid]
      have : ¬ ({ req with
          status := "matched",
          matched_with := some cand.user_id } : WalkRequest).id = cand.id := by
        simpa [hrid] using (Ne.symm hcne)
      rw [if_neg this]
    · rw [← hs', ← hcid]
      simp only [fwb_commit]
      unfold lookupRequest
      rw [lookup_of_update, lookup_of_update]
      rw [unique_find? s.walk_requests huniq cand hmem]
      simp only [Option.map_some']
      rw [if_neg hcne, if_pos rfl]
    · rw [← hs', ← hcid, ← hlat, ← hlng]
      simp [fwb_commit]

/-- Witness for C2: on `stC1` the matcher pairs `r1` with `rc`, flips
both to `matched` with crossed `matched_with`, and appends the single
pending Match row at the start midpoint. -/
theorem find_walk_buddy_match_effects_witness :
    ∃ cand, lookupRequest stC1 "rc" = some cand ∧ cand.status = "waiting" ∧
      lookupRequest (find_walk_buddy latOf stC1 "r1" 0 0 0 0 0 "m1").1 "r1" =
        some { reqC1 with
          status := "matched", matched_with := some cand.user_id } ∧
      lookupRequest (find_walk_buddy latOf stC1 "r1" 0 0 0 0 0 "m1").1 "rc" =
        some { cand with
          status := "matched", matched_with := some reqC1.user_id } ∧
      (find_walk_buddy latOf stC1 "r1" 0 0 0 0 0 "m1").1.match_rows =
        stC1.match_rows ++
        [{ id := "m1", request_1 := "r1", request_2 := "rc",
           meetup_lat := (reqC1.start_lat + cand.start_lat) / 2,
           meetup_lng := (reqC1.start_lng + cand.start_lng) / 2,
           status := "pending" }] :=
  find_walk_buddy_match_effects latOf stC1 "r1" 0 0 0 0 0 "m1" _ "rc" reqC1
    (by unfold uniqueRequestIds; decide) (by decide) rfl rfl rfl
    (Prod.ext_iff.mpr ⟨rfl, by decide⟩)

/-- Waiting request of user u1 for the race scenario (start distance 0.2
under `latOf`). -/
def r1Race : WalkRequest :=
  { id := "r1", user_id := "u1", start_lat := mkRat 2 10, start_lng := 0,
    dest_lat := 0, dest_lng := 0, status := "waiting",
    matched_with := none, expires_at := 100 }

/-- Waiting request of user u2 for the race scenario (start distance 0.2
under `latOf`). -/
def r2Race : WalkRequest :=
  { id := "r2", user_id := "u2", start_lat := mkRat 2 10, start_lng := 0,
    dest_lat := 0, dest_lng := 0, status := "waiting",
    matched_with := none, expires_at := 100 }

/-- The contended candidate of the race scenario: nearest (start
distance 0.1 under `latOf`) to both `r1` and `r2`. -/
def rcRace : WalkRequest :=
  { id := "rc", user_id := "u3", start_lat := mkRat 1 10, start_lng := 0,
    dest_lat := 0, dest_lng := 0, status := "waiting",
    matched_with := none, expires_at := 100 }

/-- Store for the race scenario: three waiting requests whose owners are
all trusted, with `rc` the common nearest candidate of `r1` and `r2`. -/
def stRace : Store :=
  { profiles := [{ id := "u1", trust_score := 100, is_banned := false },
                 { id := "u2", trust_score := 100, is_banned := false },
                 { id := "u3", trust_score := 100, is_banned := false }],
    walk_requests := [r1Race, r2Race, rcRace],
    match_rows := [] }

/-- C3: the `waiting -> matched` transition of `find_walk_buddy` is NOT
guarded by a `status = 'waiting'` precondition (its `UPDATE`s filter on
`id` alone), so per-candidate mutual exclusion fails: in the
interleaving where two concurrent invocations (for `r1` and for `r2`)
both run their candidate `SELECT` against the same snapshot, both select
the waiting candidate `rc`, and then both run their write phase, both
commits succeed and `rc` ends up referenced by two Match rows. -/
theorem find_walk_buddy_race_double_match :
    (lookupRequest stRace "rc").map (fun r => r.status) = some "waiting" ∧
    fwb_select latOf stRace "r1" (some "u1") 0 0 0 0 0 = some rcRace ∧
    fwb_select latOf stRace "r2" (some "u2") 0 0 0 0 0 = some rcRace ∧
    ((fwb_commit (fwb_commit stRace "r1" (some "u1") 0 0 rcRace "m1").1
        "r2" (some "u2") 0 0 rcRace "m2").1.match_rows.filter
      (fun m => m.request_1 == "rc" || m.request_2 == "rc")).length = 2 :=
  ⟨by decide, by decide, by decide, by decide⟩

/-- C5: the matcher performs no conflict detection and no retry.  In the
lost-race interleaving of `stRace`, after the first invocation commits,
the candidate `rc` is already claimed (`matched`); the second
invocation's write phase nevertheless succeeds, reports the match
(instead of re-running selection or reporting "no match"), and leaves
`r2` `matched` rather than `waiting`.  (`findMatch` in
`src/lib/services/walkRequest.ts` invokes the RPC exactly once and has
no retry loop around it.) -/
theorem find_walk_buddy_no_conflict_retry :
    (lookupRequest (fwb_commit stRace "r1" (some "u1") 0 0 rcRace "m1").1
        "rc").map (fun r => r.status) = some "matched" ∧
    (fwb_commit (fwb_commit stRace "r1" (some "u1") 0 0 rcRace "m1").1
        "r2" (some "u2") 0 0 rcRace "m2").2 = some "rc" ∧
    (lookupRequest (fwb_commit (fwb_commit stRace "r1" (some "u1") 0 0
        rcRace "m1").1 "r2" (some "u2") 0 0 rcRace "m2").1 "r2").map
      (fun r => r.status) = some "matched" :=
  ⟨by decide, by decide, by decide⟩

/-- A cancelled request, used as the requester of the C4 scenario. -/
def raC4 : WalkRequest :=
  { id := "ra", user_id := "u1", start_lat := 0, start_lng := 0,
    dest_lat := 0, dest_lng := 0, status := "cancelled",
    matched_with := none, expires_at := 100 }

/-- An eligible waiting candidate for the C4 scenario. -/
def rbC4 : WalkRequest :=
  { id := "rb", user_id := "u2", start_lat := mkRat 1 10, start_lng := 0,
    dest_lat := 0, dest_lng := 0, status := "waiting",
    matched_with := none, expires_at := 100 }

/-- Store for the C4 scenario: the requester's request is `cancelled`
while an eligible candidate is waiting. -/
def stC4 : Store :=
  { profiles := [{ id := "u1", trust_score := 100, is_banned := false },
                 { id := "u2", trust_score := 100, is_banned := false }],
    walk_requests := [raC4, rbC4],
    match_rows := [] }

/-- C4: `find_walk_buddy` never checks the requester's own status, so
invoking the matcher for a request that is no longer `waiting` still
produces a Match referencing it: on `stC4` the requester's request `ra`
is `cancelled`, yet the matcher pairs it with `rb` and inserts a Match
row referencing `ra`. -/
theorem find_walk_buddy_matches_nonwaiting_requester :
    (lookupRequest stC4 "ra").map (fun r => r.status) = some "cancelled" ∧
    (find_walk_buddy latOf stC4 "ra" 0 0 0 0 0 "m9").2 = some "rb" ∧
    (find_walk_buddy latOf stC4 "ra" 0 0 0 0 0 "m9").1.match_rows.map
      (fun m => (m.request_1, m.request_2)) = [("ra", "rb")] :=
  ⟨by decide, by decide, by decide⟩

/-- An expired request owned by `ux`, for the C7 counterexample. -/
def rxC7 : WalkRequest :=
  { id := "rx", user_id := "ux", start_lat := 0, start_lng := 0,
    dest_lat := 0, dest_lng := 0, status := "expired",
    matched_with := none, expires_at := 0 }

/-- Store holding only the expired request `rx`. -/
def stC7 : Store :=
  { profiles := [], walk_requests := [rxC7], match_rows := [] }

/-- C7 counterexample: `cancelRequest` transitions a request out of the
terminal state `expired` — the owner's cancel of the already-expired
`rx` succeeds and overwrites its status with `cancelled`. -/
theorem cancelRequest_cancels_expired_request :
    (lookupRequest stC7 "rx").map (fun r => r.status) = some "expired" ∧
    (match cancelRequest stC7 "rx" "ux" with
     | .ok s' => (lookupRequest s' "rx").map (fun r => r.status)
     | .error _ => none) = some "cancelled" :=
  ⟨by decide, by decide⟩

/-- C7 (amended): for an existing uniquely-identified request,
`cancelRequest` fails with Unauthorized exactly when the caller does not
own it; when the caller owns it, the status is overwritten with
`cancelled` unconditionally, whatever the current status (terminal
states included). -/
theorem cancelRequest_auth_and_unconditional_cancel
    (s : Store) (requestId userId : String) (req : WalkRequest)
    (hreq : singleRow (s.walk_requests.filter (fun r => r.id == requestId)) =
      some req) :
    (cancelRequest s requestId userId = .error .unauthorized ↔
      req.user_id ≠ userId) ∧
    (req.user_id = userId →
      cancelRequest s requestId userId = .ok { s with
        walk_requests := s.walk_requests.map (fun r =>
          if r.id = requestId then { r with status := "cancelled" }
          else r) }) := by
  unfold cancelRequest
  rw [hreq]
  dsimp only
  by_cases h : req.user_id = userId
  · rw [if_neg (by simpa using h)]
    constructor
    · constructor
      · intro hc
        exact absurd hc (by simp)
      · intro hc
        exact absurd h hc
    · intro _
      rfl
  · rw [if_pos h]
    constructor
    · exact iff_of_true rfl h
    · intro hc
      exact absurd hc h

/-- Witness for the amended C7: the owner's cancel of the expired `rx`
returns the store with `rx` overwritten to `cancelled`. -/
theorem cancelRequest_auth_and_unconditional_cancel_witness :
    cancelRequest stC7 "rx" "ux" = .ok { stC7 with
      walk_requests := stC7.walk_requests.map (fun r =>
        if r.id = "rx" then { r with status := "cancelled" } else r) } :=
  (cancelRequest_auth_and_unconditional_cancel stC7 "rx" "ux" rxC7 rfl).2 rfl

/-- A matched request owned by `u1`, for the C8 scenario. -/
def rmC8 : WalkRequest :=
  { id := "rm", user_id := "u1", start_lat := 0, start_lng := 0,
    dest_lat := 0, dest_lng := 0, status := "matched",
    matched_with := some "u2", expires_at := 100 }

/-- Store for the C8 scenario: a matched request with its pending Match
row. -/
def stC8 : Store :=
  { profiles := [],
    walk_requests := [rmC8],
    match_rows := [{ id := "m1", request_1 := "rm", request_2 := "rz",
                     meetup_lat := 0, meetup_lng := 0,
                     status := "pending" }] }

/-- C8: on a `matched` request owned by the caller, `confirmMeetup`
writes the status `completed` — but the `walk_requests` CHECK constraint
of the migration (`supabase-migration.sql` line 25) does not admit
`completed`, so the storage layer rejects the very status the service
writes. -/
theorem confirmMeetup_writes_status_rejected_by_check :
    (match confirmMeetup stC8 "rm" "u1" with
     | .ok s' => (lookupRequest s' "rm").map (fun r => r.status)
     | .error _ => none) = some "completed" ∧
    walk_requests_status_check "completed" = false :=
  ⟨by decide, by decide⟩

/-- Constituent request `ra` (owned by `u1`) of the C10 match. -/
def raC10 : WalkRequest :=
  { id := "ra", user_id := "u1", start_lat := 0, start_lng := 0,
    dest_lat := 0, dest_lng := 0, status := "matched",
    matched_with := some "u2", expires_at := 100 }

/-- Constituent request `rb` (owned by `u2`) of the C10 match. -/
def rbC10 : WalkRequest :=
  { id := "rb", user_id := "u2", start_lat := 0, start_lng := 0,
    dest_lat := 0, dest_lng := 0, status := "matched",
    matched_with := some "u1", expires_at := 100 }

/-- An already-cancelled match between `ra` and `rb`. -/
def mwC10 : MatchRec :=
  { id := "m1", request_1 := "ra", request_2 := "rb",
    meetup_lat := 0, meetup_lng := 0, status := "cancelled" }

/-- Store for the C10 witness. -/
def stC10 : Store :=
  { profiles := [], walk_requests := [raC10, rbC10],
    match_rows := [mwC10] }

/-- C10: `completeMatch` and `cancelMatch` fail with Unauthorized
exactly when the caller owns neither constituent request of the match;
when the caller owns one, they overwrite the match status (with
`completed` resp. `cancelled`) unconditionally — no precondition on the
match's current status. -/
theorem completeMatch_cancelMatch_auth_and_unconditional
    (s : Store) (matchId userId : String) (m : MatchRec)
    (hm : singleRow (s.match_rows.filter (fun x => x.id == matchId)) =
      some m) :
    (completeMatch s matchId userId = .error .unauthorized ↔
      ¬ ∃ r ∈ s.walk_requests,
        (r.id = m.request_1 ∨ r.id = m.request_2) ∧ r.user_id = userId) ∧
    (cancelMatch s matchId userId = .error .unauthorized ↔
      ¬ ∃ r ∈ s.walk_requests,
        (r.id = m.request_1 ∨ r.id = m.request_2) ∧ r.user_id = userId) ∧
    ((∃ r ∈ s.walk_requests,
        (r.id = m.request_1 ∨ r.id = m.request_2) ∧ r.user_id = userId) →
      completeMatch s matchId userId = .ok { s with
        match_rows := s.match_rows.map (fun x =>
          if x.id = matchId then { x with status := "completed" }
          else x) } ∧
      cancelMatch s matchId userId = .ok { s with
        match_rows := s.match_rows.map (fun x =>
          if x.id = matchId then { x with status := "cancelled" }
          else x) }) := by
  have hany : ((s.walk_requests.filter (fun r =>
      r.id == m.request_1 || r.id == m.request_2)).any
        (fun r => r.user_id == userId) = true) ↔
      ∃ r ∈ s.walk_requests,
        (r.id = m.request_1 ∨ r.id = m.request_2) ∧ r.user_id = userId := by
    simp [List.any_eq_true, List.mem_filter, and_assoc]
  unfold completeMatch cancelMatch
  rw [hm]
  dsimp only
  by_cases hb : (s.walk_requests.filter (fun r =>
      r.id == m.request_1 || r.id == m.request_2)).any
        (fun r => r.user_id == userId) = true
  · rw [if_pos hb, if_pos hb]
    refine ⟨?_, ?_, ?_⟩
    · exact iff_of_false (by simp) (not_not_intro (hany.mp hb))
    · exact iff_of_false (by simp) (not_not_intro (hany.mp hb))
    · intro _
      exact ⟨rfl, rfl⟩
  · rw [if_neg hb, if_neg hb]
    refine ⟨?_, ?_, ?_⟩
    · exact iff_of_true rfl (fun hex => hb (hany.mpr hex))
    · exact iff_of_true rfl (fun hex => hb (hany.mpr hex))
    · intro hex
      exact absurd (hany.mpr hex) hb

/-- Witness for C10: on the already-cancelled match `m1`, a caller
owning one constituent request overwrites the status to `completed`
resp. `cancelled` with no state precondition. -/
theorem completeMatch_cancelMatch_auth_and_unconditional_witness :
    mwC10.status = "cancelled" ∧
    completeMatch stC10 "m1" "u1" = .ok { stC10 with
      match_rows := stC10.match_rows.map (fun x =>
        if x.id = "m1" then { x with status := "completed" } else x) } ∧
    cancelMatch stC10 "m1" "u1" = .ok { stC10 with
      match_rows := stC10.match_rows.map (fun x =>
        if x.id = "m1" then { x with status := "cancelled" } else x) } :=
  ⟨rfl,
   (completeMatch_cancelMatch_auth_and_unconditional stC10 "m1" "u1" mwC10
      rfl).2.2 ⟨raC10, by decide, by decide⟩⟩

/-- A waiting request past its deadline, for the sweeper witness. -/
def rowC6 : WalkRequest :=
  { id := "r1", user_id := "u1", start_lat := 0, start_lng := 0,
    dest_lat := 0, dest_lng := 0, status := "waiting",
    matched_with := none, expires_at := 5 }

/-- A one-request store for the sweeper witness. -/
def stC6 : Store :=
  { profiles := [], walk_requests := [rowC6], match_rows := [] }

/-- Witness for C6: the sweeper at time 10 expires the overdue waiting
request of `stC6`. -/
theorem cleanup_expired_requests_frame_and_idempotent_witness :
    (cleanup_expired_requests stC6 10).walk_requests[0]? =
      some { rowC6 with status := "expired" } :=
  ((cleanup_expired_requests_frame_and_idempotent stC6 10).2.2.2.1 0 rowC6
    rfl).1 (by decide)

/-- C9: the great-circle distance `calculate_distance` is symmetric in its
two coordinate points, and is `0` on identical coordinates (over exact
real arithmetic on the Haversine formula with sphere radius 3959 miles). -/
theorem calculate_distance_symm_and_self_zero :
    (∀ lat1 lng1 lat2 lng2 : ℝ,
      calculate_distance lat1 lng1 lat2 lng2 =
        calculate_distance lat2 lng2 lat1 lng1) ∧
    (∀ lat lng : ℝ, calculate_distance lat lng lat lng = 0) := by
  constructor
  · intro lat1 lng1 lat2 lng2
    unfold calculate_distance
    have h1 : radians (lat2 - lat1) = -(radians (lat1 - lat2)) := by
      unfold radians; ring
    have h2 : radians (lng2 - lng1) = -(radians (lng1 - lng2)) := by
      unfold radians; ring
    simp only [h1, h2, neg_div, Real.sin_neg, neg_mul, mul_neg, neg_neg]
    ring_nf
  · intro lat lng
    unfold calculate_distance atan2
    simp [radians, Real.arctan_zero]

end WalkBuddy
